import Mathlib

/-!
Verification of the cloud/shadow-masking and region-reduction helpers of the
`gee_tools` repository (`s2cloudless.py`, `gee_functions.py`).

The repository orchestrates calls against a remote raster/vector compute
service.  We shallowly embed that orchestration: an image is a list of named
bands, each band a pixel-value function on the integer grid together with a
validity mask and a projection record; collections are lists; the service's
raster primitives (thresholding, band algebra, focal morphology, directional
distance transform, save-first equality join, region reduction,
materialisation) are given executable semantics matching the service
interface the code relies on.  Remote round trips ("materialisations") are
recorded as explicit traces so that fail-fast behaviour is observable.
-/

set_option autoImplicit false

namespace GeeTools

/-- A pixel coordinate on the working grid. -/
abbrev Pix := ℤ × ℤ

/-- A projection: coordinate reference system plus scale in metres. -/
structure Proj where
  crs : String
  scale : ℚ

/-- Default projection carried by freshly synthesised constant bands. -/
def defaultProj : Proj := ⟨"EPSG:32622", 10⟩

/-- A raster band: a name, a per-pixel rational value, a per-pixel validity
mask (`true` = valid data), and a projection. -/
structure Band where
  name : String
  val : Pix → ℚ
  msk : Pix → Bool
  proj : Proj

/-- The band an operation falls back to when its operand has no bands
(the service would error; the model totalises with a constant band). -/
def defaultBand : Band := ⟨"constant", fun _ => 0, fun _ => true, defaultProj⟩

/-- A property value attached to an image or feature: the service's scalars,
strings, nulls, and (for join results) whole images. -/
inductive PropVal where
  | null : PropVal
  | num : ℚ → PropVal
  | str : String → PropVal
  | img : List Band → List (String × PropVal) → PropVal

/-- An image: named bands plus a property map (first entry wins on lookup,
so prepending models the service's `set`). -/
structure Image where
  bands : List Band
  props : List (String × PropVal)

/-- First-match association-list lookup; missing keys give `null`, as the
service's `get` does. -/
def lookupProp : List (String × PropVal) → String → PropVal
  | [], _ => .null
  | (k, v) :: rest, key => if k = key then v else lookupProp rest key

def Image.getProp (i : Image) (k : String) : PropVal := lookupProp i.props k

/-- `set` a property (overwrite semantics via prepend + first-match lookup). -/
def Image.set (i : Image) (k : String) (v : PropVal) : Image :=
  ⟨i.bands, (k, v) :: i.props⟩

/-- Cast a property value back to an image (`ee.Image(img.get(...))`). -/
def castImage : PropVal → Image
  | .img bs ps => ⟨bs, ps⟩
  | _ => ⟨[], []⟩

/-- Cast a property value to a number (`ee.Number(img.get(...))`). -/
def castNum : PropVal → ℚ
  | .num q => q
  | _ => 0

/-- An image as a property value (what a join attaches to the primary). -/
def Image.toProp (i : Image) : PropVal := .img i.bands i.props

/-- Does `s` start with `pre`? (computation-friendly restatement of
`String.startsWith`). -/
def strStartsWith (s pre : String) : Bool :=
  s.data.take pre.data.length == pre.data

/-- Does `s` end with `suf`? -/
def strEndsWith (s suf : String) : Bool :=
  s.data.drop (s.data.length - suf.data.length) == suf.data

/-- `s` with its last `n` characters removed. -/
def strStem (s : String) (n : Nat) : String :=
  ⟨s.data.take (s.data.length - n)⟩

/-- Band-selector semantics: the service accepts anchored regexes.  The
repository only ever passes literal names and the pattern `"B.*"`, so a
pattern ending in `".*"` is modelled as a stem test and anything else as an
exact name match. -/
def selMatches (pat name : String) : Bool :=
  if strEndsWith pat ".*" then strStartsWith name (strStem pat 2) else pat == name

/-- `img.select(pattern)`: keep the bands whose name matches. -/
def Image.select (i : Image) (pat : String) : Image :=
  ⟨i.bands.filter (fun b => selMatches pat b.name), i.props⟩

/-- `img.select(n)` for a numeric index: keep the n-th band. -/
def Image.selectIdx (i : Image) (n : ℕ) : Image :=
  ⟨(i.bands.drop n).take 1, i.props⟩

/-- The first band of an image (operand of single-band arithmetic). -/
def Image.band0 (i : Image) : Band := i.bands.headD defaultBand

/-- `img.projection()` of a single-band image. -/
def Image.projection (i : Image) : Proj := i.band0.proj

/-- Find a band by exact name (first match). -/
def Image.getBand (i : Image) (n : String) : Option Band :=
  i.bands.find? (fun b => b.name == n)

def Image.bandNames (i : Image) : List String := i.bands.map Band.name

/-- Value of the named band at a pixel (default band when absent). -/
def Image.bandVal (i : Image) (n : String) (p : Pix) : ℚ :=
  ((i.getBand n).getD defaultBand).val p

/-- `img.gt(c)`: 1 where the (single) band exceeds `c`, else 0. -/
def Image.gtNum (i : Image) (c : ℚ) : Image :=
  ⟨[⟨(i.band0).name, fun p => if c < (i.band0).val p then 1 else 0,
     (i.band0).msk, (i.band0).proj⟩], i.props⟩

/-- `img.lt(c)`: 1 where the band is below `c`, else 0. -/
def Image.ltNum (i : Image) (c : ℚ) : Image :=
  ⟨[⟨(i.band0).name, fun p => if (i.band0).val p < c then 1 else 0,
     (i.band0).msk, (i.band0).proj⟩], i.props⟩

/-- `img.neq(c)`: 1 where the band differs from `c`, else 0. -/
def Image.neqNum (i : Image) (c : ℚ) : Image :=
  ⟨[⟨(i.band0).name, fun p => if (i.band0).val p = c then 0 else 1,
     (i.band0).msk, (i.band0).proj⟩], i.props⟩

/-- `img.Not()`: 1 where the band is 0, else 0. -/
def Image.Not (i : Image) : Image :=
  ⟨[⟨(i.band0).name, fun p => if (i.band0).val p = 0 then 1 else 0,
     (i.band0).msk, (i.band0).proj⟩], i.props⟩

/-- `a.multiply(b)` on the leading bands. -/
def Image.multiply (i j : Image) : Image :=
  ⟨[⟨(i.band0).name, fun p => (i.band0).val p * (j.band0).val p,
     fun p => (i.band0).msk p && (j.band0).msk p, (i.band0).proj⟩], i.props⟩

/-- `a.add(b)` on the leading bands. -/
def Image.add (i j : Image) : Image :=
  ⟨[⟨(i.band0).name, fun p => (i.band0).val p + (j.band0).val p,
     fun p => (i.band0).msk p && (j.band0).msk p, (i.band0).proj⟩], i.props⟩

/-- `img.rename(n)`: used in the repository on single-band images only. -/
def Image.rename (i : Image) (n : String) : Image :=
  ⟨i.bands.map (fun b => ⟨n, b.val, b.msk, b.proj⟩), i.props⟩

/-- `img.addBands(other)`: append the other image's bands. -/
def Image.addBands (i j : Image) : Image := ⟨i.bands ++ j.bands, i.props⟩

/-- `ee.Image([a, b, ...])`: concatenate bands. -/
def imageCat (l : List Image) : Image := ⟨(l.map Image.bands).flatten, []⟩

/-- `img.mask()`: the validity mask as a 0/1 band, itself valid everywhere. -/
def Image.maskOp (i : Image) : Image :=
  ⟨i.bands.map (fun b => ⟨b.name, fun p => if b.msk p then 1 else 0,
     fun _ => true, b.proj⟩), i.props⟩

/-- `img.updateMask(m)`: valid where already valid and `m`'s band is valid
and nonzero. -/
def Image.updateMask (i m : Image) : Image :=
  ⟨i.bands.map (fun b => ⟨b.name, b.val,
     fun p => b.msk p && ((m.band0).msk p && decide ((m.band0).val p ≠ 0)),
     b.proj⟩), i.props⟩

/-- `img.reproject(crs, scale)`: records the target projection (the model
abstracts resampling as the identity on pixel values). -/
def Image.reproject (i : Image) (pr : Proj) : Image :=
  ⟨i.bands.map (fun b => ⟨b.name, b.val, b.msk, pr⟩), i.props⟩

/-- `img.normalizedDifference([n1, n2])`: (a − b) / (a + b), band `nd`. -/
def Image.normalizedDifference (i : Image) (n1 n2 : String) : Image :=
  let a := (i.getBand n1).getD defaultBand
  let b := (i.getBand n2).getD defaultBand
  ⟨[⟨"nd", fun p => (a.val p - b.val p) / (a.val p + b.val p),
     fun p => a.msk p && b.msk p, a.proj⟩], i.props⟩

/-- Integer radius of a focal kernel (nonnegative floor of the given
radius, in working-resolution pixels). -/
def ballRad (r : ℚ) : ℤ := max ⌊r⌋ 0

/-- The (Chebyshev) neighbourhood of radius `r` around the origin. -/
def ball (r : ℚ) : Finset Pix :=
  (Finset.Icc (-ballRad r) (ballRad r)) ×ˢ (Finset.Icc (-ballRad r) (ballRad r))

theorem ball_nonempty (r : ℚ) : (ball r).Nonempty := by
  refine ⟨(0, 0), Finset.mem_product.mpr ⟨?_, ?_⟩⟩ <;>
    exact Finset.mem_Icc.mpr ⟨neg_nonpos.mpr (le_max_right _ _), le_max_right _ _⟩

/-- Focal minimum (erosion) of one band. -/
def focalMinB (r : ℚ) (b : Band) : Band :=
  ⟨b.name, fun p => (ball r).inf' (ball_nonempty r)
     (fun q => b.val (p.1 + q.1, p.2 + q.2)), b.msk, b.proj⟩

/-- Focal maximum (dilation) of one band. -/
def focalMaxB (r : ℚ) (b : Band) : Band :=
  ⟨b.name, fun p => (ball r).sup' (ball_nonempty r)
     (fun q => b.val (p.1 + q.1, p.2 + q.2)), b.msk, b.proj⟩

/-- `img.focalMin(r)`. -/
def Image.focalMin (i : Image) (r : ℚ) : Image :=
  ⟨i.bands.map (focalMinB r), i.props⟩

/-- `img.focalMax(r)`. -/
def Image.focalMax (i : Image) (r : ℚ) : Image :=
  ⟨i.bands.map (focalMaxB r), i.props⟩

/-- Quantised unit step for an azimuth in degrees (the service rasterises
the projection direction; the model uses eight compass sectors). -/
def azStep (az : ℚ) : Pix :=
  let a : ℚ := az - 360 * ⌊az / 360⌋
  if a < 45/2 then (0, 1)
  else if a < 3 * 45/2 then (1, 1)
  else if a < 5 * 45/2 then (1, 0)
  else if a < 7 * 45/2 then (1, -1)
  else if a < 9 * 45/2 then (0, -1)
  else if a < 11 * 45/2 then (-1, -1)
  else if a < 13 * 45/2 then (-1, 0)
  else if a < 15 * 45/2 then (-1, 1)
  else (0, 1)

/-- The step counts `k ∈ [1, d]` at which the source band has valid nonzero
data `k` steps back along the azimuth from `p`. -/
def ddtHits (b : Band) (az d : ℚ) (p : Pix) : Finset ℤ :=
  (Finset.Icc 1 (max ⌊d⌋ 1)).filter (fun k =>
    b.msk (p.1 - k * (azStep az).1, p.2 - k * (azStep az).2) = true ∧
    b.val (p.1 - k * (azStep az).1, p.2 - k * (azStep az).2) ≠ 0)

/-- `img.directionalDistanceTransform(az, d)`: a `distance` band holding the
least hit distance, masked where no source pixel is hit within `d` steps. -/
def Image.directionalDistanceTransform (i : Image) (az d : ℚ) : Image :=
  ⟨[⟨"distance",
     fun p => if h : (ddtHits (i.band0) az d p).Nonempty
              then ((ddtHits (i.band0) az d p).min' h : ℚ) else 0,
     fun p => decide (ddtHits (i.band0) az d p).Nonempty,
     (i.band0).proj⟩], i.props⟩

/-! ## Module constants of `s2cloudless.py` -/

def CLOUD_FILTER : ℚ := 60
def CLD_PRB_THRESH : ℚ := 40
def NIR_DRK_THRESH : ℚ := 0.15
def CLD_PRJ_DIST : ℚ := 1
def BUFFER : ℚ := 100

/-! ## The cloud/shadow pipeline (`s2cloudless.py`) -/

/-- The `cld_prb` local of `add_cloud_bands`: the probability band of the
attached s2cloudless image. -/
def acb_cld_prb (img : Image) : Image :=
  (castImage (img.getProp "s2cloudless")).select "probability"

/-- The `is_cloud` local of `add_cloud_bands`: probability conditioned by
the threshold. -/
def acb_is_cloud (img : Image) : Image :=
  ((acb_cld_prb img).gtNum CLD_PRB_THRESH).rename "clouds"

/-- `add_cloud_bands` (s2cloudless.py lines 49-57), with its locals as the
named definitions above. -/
def add_cloud_bands (img : Image) : Image :=
  img.addBands (imageCat [acb_cld_prb img, acb_is_cloud img])

/-- The `SR_BAND_SCALE` local of `add_shadow_bands`. -/
def SR_BAND_SCALE : ℚ := 10000

/-- The `not_water` local of `add_shadow_bands`. -/
def asb_not_water (img : Image) (use_SCL : Bool) : Image :=
  if use_SCL then (img.select "SCL").neqNum 6
  else (img.normalizedDifference "B4" "B2").ltNum 0.2

/-- The `dark_pixels` local of `add_shadow_bands`. -/
def asb_dark_pixels (img : Image) (use_SCL : Bool) : Image :=
  (((img.select "B8").ltNum (NIR_DRK_THRESH * SR_BAND_SCALE)).multiply
    (asb_not_water img use_SCL)).rename "dark_pixels"

/-- The `shadow_azimuth` local of `add_shadow_bands`. -/
def asb_shadow_azimuth (img : Image) : ℚ :=
  90 - castNum (img.getProp "MEAN_SOLAR_AZIMUTH_ANGLE")

/-- The `cld_proj` local of `add_shadow_bands`. -/
def asb_cld_proj (img : Image) : Image :=
  (((((img.select "clouds").directionalDistanceTransform
        (asb_shadow_azimuth img) (CLD_PRJ_DIST * 10)).reproject
      ⟨(img.selectIdx 0).projection.crs, 100⟩).select "distance").maskOp).rename
    "cloud_transform"

/-- The `shadows` local of `add_shadow_bands`. -/
def asb_shadows (img : Image) (use_SCL : Bool) : Image :=
  ((asb_cld_proj img).multiply (asb_dark_pixels img use_SCL)).rename "shadows"

/-- `add_shadow_bands` (s2cloudless.py lines 60-89), with its locals as the
named definitions above. -/
def add_shadow_bands (img : Image) (use_SCL : Bool) : Image :=
  img.addBands
    (imageCat [asb_dark_pixels img use_SCL, asb_cld_proj img,
               asb_shadows img use_SCL])

/-- The first `is_cld_shdw` local of `add_cld_shdw_mask`: clouds plus
shadows, thresholded above 0. -/
def acsm_is_cld_shdw (img : Image) (use_SCL : Bool) : Image :=
  let img_cloud_shadow := add_shadow_bands (add_cloud_bands img) use_SCL
  ((img_cloud_shadow.select "clouds").add
    (img_cloud_shadow.select "shadows")).gtNum 0

/-- The morphological cleanup of `add_cld_shdw_mask`, parameterised by the
dilation radius so the source's radius and the claimed radius can be
compared: erode by 2, dilate by `rad`, reproject to 20 m, rename. -/
def acsm_cloudmask (img : Image) (use_SCL : Bool) (rad : ℚ) : Image :=
  ((((acsm_is_cld_shdw img use_SCL).focalMin 2).focalMax rad).reproject
    ⟨(img.selectIdx 0).projection.crs, 20⟩).rename "cloudmask"

/-- `add_cld_shdw_mask` (s2cloudless.py lines 92-109): the source dilates
by `BUFFER * 2 / 20`. -/
def add_cld_shdw_mask (img : Image) (use_SCL : Bool) : Image :=
  (add_shadow_bands (add_cloud_bands img) use_SCL).addBands
    (acsm_cloudmask img use_SCL (BUFFER * 2 / 20))

/-- The mask combiner as claim C2 words it: identical to
`add_cld_shdw_mask` except that the dilation radius is the 100 m buffer
distance expressed at the 20 m working resolution, `BUFFER / 20` (= 5),
instead of the source's `BUFFER * 2 / 20` (= 10). -/
def claimed_add_cld_shdw_mask (img : Image) (use_SCL : Bool) : Image :=
  (add_shadow_bands (add_cloud_bands img) use_SCL).addBands
    (acsm_cloudmask img use_SCL (BUFFER / 20))

/-- `apply_cld_shdw_mask` (s2cloudless.py lines 112-117). -/
def apply_cld_shdw_mask (img : Image) : Image :=
  let not_cld_shdw := (img.select "cloudmask").Not
  (img.select "B.*").updateMask not_cld_shdw

/-! ## Collections, filters and the save-first join (`get_s2_sr_cld_col`) -/

/-- Shallow equality of property values, as the service's `ee.Filter.equals`
compares scene-identifier fields (numbers and strings; a null or image value
never matches). -/
def propValEq : PropVal → PropVal → Bool
  | .num a, .num b => decide (a = b)
  | .str a, .str b => a == b
  | _, _ => false

/-- `filterDate(start, end)`: keep images whose `system:time_start` lies in
`[start, end)`. -/
def filterDate (sd ed : ℚ) (l : List Image) : List Image :=
  l.filter (fun i => match i.getProp "system:time_start" with
    | .num t => decide (sd ≤ t ∧ t < ed)
    | _ => false)

/-- `filterBounds(geom)`: geometry intersection abstracted as a predicate. -/
def filterBounds (bounds : Image → Bool) (l : List Image) : List Image :=
  l.filter bounds

/-- `filter(ee.Filter.lte(field, c))`. -/
def filterLte (field : String) (c : ℚ) (l : List Image) : List Image :=
  l.filter (fun i => match i.getProp field with
    | .num v => decide (v ≤ c)
    | _ => false)

/-- Does the secondary image's `rightField` equal the primary's `leftField`? -/
def fieldMatches (lf rf : String) (p s : Image) : Bool :=
  propValEq (p.getProp lf) (s.getProp rf)

/-- `ee.Join.saveFirst(matchKey).apply(primary, secondary, condition)`:
for each primary keep the first condition-matching secondary as property
`matchKey`; primaries without a match are dropped (inner join).  Semantics
per the service interface relied on by the spec (§6: equality join with
"keep first match" semantics). -/
def joinSaveFirst (matchKey : String) (primary secondary : List Image)
    (lf rf : String) : List Image :=
  primary.filterMap (fun p =>
    (secondary.find? (fun s => fieldMatches lf rf p s)).map
      (fun s => p.set matchKey s.toProp))

/-- The filtered primary (reflectance) collection built inside
`get_s2_sr_cld_col`: `COPERNICUS/S2`, date- and bounds-filtered, cloudy-pixel
percentage at most `CLOUD_FILTER`.  The remote catalog is a parameter from
source names to collections. -/
def s2ReflCol (catalog : String → List Image) (bounds : Image → Bool)
    (sd ed : ℚ) : List Image :=
  filterLte "CLOUDY_PIXEL_PERCENTAGE" CLOUD_FILTER
    (filterBounds bounds (filterDate sd ed (catalog "COPERNICUS/S2")))

/-- The filtered secondary (cloud-probability) collection built inside
`get_s2_sr_cld_col`: `COPERNICUS/S2_CLOUD_PROBABILITY`, date- and
bounds-filtered. -/
def s2CloudProbCol (catalog : String → List Image) (bounds : Image → Bool)
    (sd ed : ℚ) : List Image :=
  filterBounds bounds (filterDate sd ed (catalog "COPERNICUS/S2_CLOUD_PROBABILITY"))

/-- `get_s2_sr_cld_col` (s2cloudless.py lines 16-46). -/
def get_s2_sr_cld_col (catalog : String → List Image) (bounds : Image → Bool)
    (start_date end_date : ℚ) : List Image :=
  joinSaveFirst "s2cloudless"
    (s2ReflCol catalog bounds start_date end_date)
    (s2CloudProbCol catalog bounds start_date end_date)
    "system:index" "system:index"

/-! ## Features, reducers and `create_reduce_regions` (`gee_functions.py`) -/

/-- A feature: an opaque geometry handle plus a property map. -/
structure Feature where
  geom : ℕ
  props : List (String × PropVal)

def Feature.set (f : Feature) (k : String) (v : PropVal) : Feature :=
  ⟨f.geom, (k, v) :: f.props⟩

def Feature.get (f : Feature) (k : String) : PropVal := lookupProp f.props k

/-- An aggregation reducer, abstracted as the per-region result it produces
for an image at a given CRS and scale (the raster statistics themselves are
computed by the remote service). -/
def Reducer := Image → Feature → String → ℚ → List (String × PropVal)

/-- `img.reduceRegions(collection, reducer, crs, scale)`: one output feature
per input region, carrying the reducer's result properties. -/
def Image.reduceRegions (img : Image) (coll : List Feature) (red : Reducer)
    (crs : String) (scale : ℚ) : List Feature :=
  coll.map (fun f => ⟨f.geom, red img f crs scale ++ f.props⟩)

/-- `img.date().millis()`: the acquisition timestamp in POSIX milliseconds. -/
def Image.dateMillis (img : Image) : ℚ :=
  castNum (img.getProp "system:time_start")

/-- `create_reduce_regions` (gee_functions.py lines 41-80).  Python defaults:
`add_date=True`, `add_props=None`, `crs=CRS`, `scale=20`. -/
def create_reduce_regions (collection : List Feature) (reducer : Reducer)
    (add_date : Bool) (add_props : Option (List String)) (crs : String)
    (scale : ℚ) : Image → List Feature :=
  fun img =>
    let d := img.reduceRegions collection reducer crs scale
    let set_props : Feature → Feature := fun f =>
      (add_props.getD []).foldl (fun g kw => g.set kw (img.getProp kw)) f
    let d2 := match add_props with
      | some _ => d.map set_props
      | none => d
    if add_date then d2.map (fun f => f.set "millis" (.num img.dateMillis))
    else d2

/-! ## Tabular conversion glue and `get_date` (`gee_functions.py`)

Materialisation calls (`getInfo`) block on a remote round trip; each model
function returns, next to its result, the trace of materialisation calls it
issued, so "fails before any remote round trip" is the trace being `[]`. -/

/-- A Python value, as far as the glue code inspects one. -/
inductive PyVal where
  | pnone : PyVal
  | pnum : ℚ → PyVal
  | pstr : String → PyVal
  | plist : List String → PyVal

/-- `isinstance(v, list)`. -/
def PyVal.isList : PyVal → Bool
  | .plist _ => true
  | _ => false

/-- The Python exceptions raised by the glue code. -/
inductive PyErr where
  | notImplementedError : PyErr
  | assertionError : PyErr

/-- A pandas DataFrame: columns, row-major cells, and the index column. -/
structure DataFrame where
  columns : List String
  rows : List (List PyVal)
  indexName : Option String

/-- A feature collection as the conversion glue consumes it: the property
names of its first feature, and its `reduceColumns(toList, selectors)` table
for any selector list (both produced remotely). -/
structure FC where
  firstPropNames : List String
  table : List String → List (List PyVal)

/-- `pd.to_datetime(v, unit='ms')`: milliseconds to a POSIX-second datetime. -/
def pdToDatetimeMs : PyVal → PyVal
  | .pnum q => .pnum (q / 1000)
  | v => v

/-- The `millis`-to-`timestamp` derivation at the end of `fc_to_df`. -/
def addTimestamp (df : DataFrame) : DataFrame :=
  if "millis" ∈ df.columns then
    ⟨df.columns ++ ["timestamp"],
     df.rows.map (fun r =>
       r ++ [pdToDatetimeMs (r.getD (df.columns.indexOf "millis") .pnone)]),
     some "timestamp"⟩
  else df

/-- `fc_to_df` (gee_functions.py lines 103-117).  `selectors=None` triggers a
`propertyNames().getInfo()` round trip to infer the columns; an explicit
non-list selector fails the `assert isinstance(selectors, list)` with no
round trip. -/
def fc_to_df (fc : FC) (selectors : Option PyVal) :
    Except PyErr DataFrame × List String :=
  match selectors with
  | none =>
      let sel := fc.firstPropNames
      (.ok (addTimestamp ⟨sel, fc.table sel, none⟩),
       ["first.propertyNames.getInfo", "reduceColumns.getInfo"])
  | some sv =>
      match sv with
      | .plist sel =>
          (.ok (addTimestamp ⟨sel, fc.table sel, none⟩),
           ["reduceColumns.getInfo"])
      | _ => (.error .assertionError, [])

/-- `fc_to_dict` (gee_functions.py lines 90-100): `raise NotImplementedError`
is its first statement; the legacy body below the raise is unreachable. -/
def fc_to_dict (fc : FC) : Except PyErr (List (String × PyVal)) × List String :=
  (.error .notImplementedError, [])

/-- `create_df` (gee_functions.py lines 120-127): `raise NotImplementedError`
is its first statement; the legacy body below the raise is unreachable. -/
def create_df (dictobj : FC) : Except PyErr DataFrame × List String :=
  (.error .notImplementedError, [])

/-- A Python `datetime`, identified by its POSIX timestamp in seconds
(`dt.datetime.fromtimestamp` interprets its argument in local time; the
model keys a datetime by that timestamp). -/
structure PyDatetime where
  posixSeconds : ℚ

/-- `dt.datetime.fromtimestamp`. -/
def dtFromTimestamp (s : ℚ) : PyDatetime := ⟨s⟩

/-- `get_date` (gee_functions.py lines 12-26): materialises the single
property `system:time_start` (note: the `attr` parameter is ignored by the
body) and converts milliseconds to a local datetime via `* 1e-3`. -/
def get_date (im : Image) (attr : String) : PyDatetime × List String :=
  let time_ms := castNum (im.getProp "system:time_start")
  (dtFromTimestamp (time_ms * (1 / 1000)), ["get system:time_start .getInfo"])

/-! ## Concrete fixtures used to instantiate the theorems -/

/-- A bandless image carrying only an acquisition timestamp. -/
def wImgEmpty : Image := ⟨[], [("system:time_start", PropVal.num 1650000000000)]⟩

/-- A trivial feature collection handle. -/
def wFC : FC := ⟨[], fun _ => []⟩

/-- Primary scene `x1` (within all filters). -/
def wPrimX1 : Image :=
  ⟨[], [("system:index", .str "x1"), ("system:time_start", .num 1000),
        ("CLOUDY_PIXEL_PERCENTAGE", .num 10)]⟩

/-- Primary scene `x2` (within all filters, no matching secondary). -/
def wPrimX2 : Image :=
  ⟨[], [("system:index", .str "x2"), ("system:time_start", .num 2000),
        ("CLOUDY_PIXEL_PERCENTAGE", .num 10)]⟩

/-- Secondary cloud-probability scene matching `x1`. -/
def wSecX1 : Image :=
  ⟨[], [("system:index", .str "x1"), ("system:time_start", .num 1000),
        ("p", .num 10)]⟩

/-- A two-primary, one-secondary catalog (the spec's join example). -/
def wCatalog : String → List Image := fun n =>
  if n = "COPERNICUS/S2" then [wPrimX1, wPrimX2]
  else if n = "COPERNICUS/S2_CLOUD_PROBABILITY" then [wSecX1]
  else []

def wBounds : Image → Bool := fun _ => true

/-- Cloud-probability band: 100 % on the Chebyshev ball of radius 2 around
the origin, exactly the 40 % threshold elsewhere. -/
def probBandT : Band :=
  ⟨"probability",
   fun r => if -2 ≤ r.1 ∧ r.1 ≤ 2 ∧ -2 ≤ r.2 ∧ r.2 ≤ 2 then 100 else 40,
   fun _ => true, defaultProj⟩

/-- A bright (never dark) near-infrared band. -/
def b8BandT : Band := ⟨"B8", fun _ => 9999, fun _ => true, defaultProj⟩

/-- A scene-classification band that is nowhere water (class 0). -/
def sclBandT : Band := ⟨"SCL", fun _ => 0, fun _ => true, defaultProj⟩

/-- A blue band with a recognisable constant value. -/
def b2BandT : Band := ⟨"B2", fun _ => 7, fun _ => true, defaultProj⟩

/-- A `clouds` band: 1 on the Chebyshev ball of radius 2, else 0. -/
def cloudsBandT : Band :=
  ⟨"clouds",
   fun r => if -2 ≤ r.1 ∧ r.1 ≤ 2 ∧ -2 ≤ r.2 ∧ r.2 ≤ 2 then 1 else 0,
   fun _ => true, defaultProj⟩

/-- A `cloudmask` band: 1 at the origin, else 0. -/
def cmBandT : Band :=
  ⟨"cloudmask", fun r => if r.1 = 0 ∧ r.2 = 0 then 1 else 0,
   fun _ => true, defaultProj⟩

/-- Test scene for the mask pipeline: bright NIR, no water, attached
cloud-probability image, sun azimuth 90°. -/
def tstImg : Image :=
  ⟨[b8BandT, sclBandT],
   [("s2cloudless", PropVal.img [probBandT] []),
    ("MEAN_SOLAR_AZIMUTH_ANGLE", PropVal.num 90)]⟩

/-- Test scene for the shadow deriver: carries a `clouds` band already. -/
def w4img : Image :=
  ⟨[cloudsBandT, b8BandT, sclBandT],
   [("MEAN_SOLAR_AZIMUTH_ANGLE", PropVal.num 90)]⟩

/-- Test scene for the mask applicator: one reflectance band, one
non-reflectance band, one `cloudmask` band. -/
def w6img : Image := ⟨[b2BandT, sclBandT, cmBandT], []⟩

/-! ## General lemmas about the model -/

theorem find?_eq_head_filter {α : Type} (p : α → Bool) (l : List α) :
    l.find? p = (l.filter p).head? := by
  induction l with
  | nil => rfl
  | cons a t ih =>
      cases h : p a with
      | true => rw [List.find?_cons_of_pos _ h, List.filter_cons_of_pos h]; rfl
      | false =>
          have h' : ¬ p a = true := by rw [h]; exact Bool.false_ne_true
          rw [List.find?_cons_of_neg _ h', List.filter_cons_of_neg h', ih]

theorem headD_eq_head?_getD {α : Type} (l : List α) (d : α) :
    l.headD d = (l.head?).getD d := by
  cases l <;> rfl

theorem beq_comm_str (a b : String) : (a == b) = (b == a) := by
  by_cases h : a = b
  · subst h; rfl
  · rw [beq_eq_false_iff_ne.mpr h, beq_eq_false_iff_ne.mpr (Ne.symm h)]

theorem selMatches_of_plain (n : String) (hn : strEndsWith n ".*" = false)
    (b : String) : selMatches n b = (b == n) := by
  rw [selMatches, hn]
  simp only [Bool.false_eq_true, if_false]
  exact beq_comm_str n b

/-- Selecting by a plain (non-regex) name yields the named band in front. -/
theorem band0_select_plain (i : Image) (n : String)
    (hn : strEndsWith n ".*" = false) :
    (i.select n).band0 = (i.getBand n).getD defaultBand := by
  unfold Image.select Image.band0 Image.getBand
  rw [headD_eq_head?_getD, find?_eq_head_filter]
  congr 2
  exact List.filter_congr (fun b _ => selMatches_of_plain n hn b.name)

theorem find?_name_eq_none (bs : List Band) (n : String)
    (h : n ∉ bs.map Band.name) :
    bs.find? (fun b => b.name == n) = none := by
  refine List.find?_eq_none.mpr (fun b hb => ?_)
  simp only [beq_iff_eq]
  intro heq
  exact h (heq ▸ List.mem_map_of_mem Band.name hb)

theorem find?_append_of_none {α : Type} (p : α → Bool) (l1 l2 : List α)
    (h : l1.find? p = none) : (l1 ++ l2).find? p = l2.find? p := by
  induction l1 with
  | nil => rfl
  | cons a t ih =>
      rw [List.find?_cons] at h
      cases hpa : p a with
      | false =>
          rw [hpa] at h
          simp only [List.cons_append, List.find?_cons, hpa]
          exact ih h
      | true => rw [hpa] at h; simp at h

theorem getBand_append (bs1 bs2 : List Band) (ps : List (String × PropVal))
    (n : String) (h : n ∉ bs1.map Band.name) :
    (Image.mk (bs1 ++ bs2) ps).getBand n = (Image.mk bs2 ps).getBand n := by
  unfold Image.getBand
  exact find?_append_of_none _ _ _ (find?_name_eq_none bs1 n h)

theorem getProp_set_ne (i : Image) (k k' : String) (v : PropVal)
    (h : k ≠ k') : (i.set k v).getProp k' = i.getProp k' := by
  simp [Image.set, Image.getProp, lookupProp, h]

theorem sup'_eq_one {s : Finset Pix} (H : s.Nonempty) (f : Pix → ℚ)
    (hb : ∀ q ∈ s, f q ≤ 1) (q0 : Pix) (h0 : q0 ∈ s) (h1 : f q0 = 1) :
    s.sup' H f = 1 :=
  le_antisymm (Finset.sup'_le H f hb) (h1 ▸ Finset.le_sup' f h0)

theorem sup'_eq_zero {s : Finset Pix} (H : s.Nonempty) (f : Pix → ℚ)
    (h : ∀ q ∈ s, f q = 0) : s.sup' H f = 0 := by
  refine le_antisymm (Finset.sup'_le H f (fun r hr => (h r hr).le)) ?_
  obtain ⟨q, hq⟩ := id H
  have hle := Finset.le_sup' f hq
  rw [h q hq] at hle
  exact hle

theorem inf'_eq_one {s : Finset Pix} (H : s.Nonempty) (f : Pix → ℚ)
    (h : ∀ q ∈ s, f q = 1) : s.inf' H f = 1 := by
  refine le_antisymm ?_ (Finset.le_inf' H f (fun r hr => (h r hr).ge))
  obtain ⟨q, hq⟩ := id H
  have hle := Finset.inf'_le f hq
  rw [h q hq] at hle
  exact hle

theorem inf'_eq_zero {s : Finset Pix} (H : s.Nonempty) (f : Pix → ℚ)
    (hb : ∀ q ∈ s, 0 ≤ f q) (q0 : Pix) (h0 : q0 ∈ s) (h1 : f q0 = 0) :
    s.inf' H f = 0 := by
  refine le_antisymm ?_ (Finset.le_inf' H f hb)
  have hle := Finset.inf'_le f h0
  rw [h1] at hle
  exact hle

/-- Membership characterisation of the save-first join. -/
theorem mem_joinSaveFirst {mk lf rf : String} {primary secondary : List Image}
    {img : Image} :
    img ∈ joinSaveFirst mk primary secondary lf rf ↔
      ∃ p ∈ primary, ∃ s, secondary.find? (fieldMatches lf rf p) = some s ∧
        img = p.set mk s.toProp := by
  unfold joinSaveFirst
  rw [List.mem_filterMap]
  constructor
  · rintro ⟨p, hp, he⟩
    cases hfind : secondary.find? (fieldMatches lf rf p) with
    | none => rw [hfind] at he; simp at he
    | some s =>
        rw [hfind] at he
        simp only [Option.map_some', Option.some.injEq] at he
        exact ⟨p, hp, s, hfind, he.symm⟩
  · rintro ⟨p, hp, s, hs, rfl⟩
    exact ⟨p, hp, by rw [hs]; rfl⟩

theorem select_plain_names (i : Image) (n : String)
    (hn : strEndsWith n ".*" = false) :
    ∀ b ∈ (i.select n).bands, b.name = n := by
  intro b hb
  have hb' : b ∈ i.bands.filter (fun c => selMatches n c.name) := hb
  have hsel := List.of_mem_filter hb'
  rw [selMatches_of_plain n hn] at hsel
  exact beq_iff_eq.mp hsel

theorem not_mem_names_of_all {bs : List Band} {m n : String}
    (h : ∀ b ∈ bs, b.name = m) (hne : m ≠ n) : n ∉ bs.map Band.name := by
  intro hmem
  obtain ⟨b, hb, hbn⟩ := List.mem_map.mp hmem
  exact hne ((h b hb).symm.trans hbn)

theorem acb_cld_prb_names (img : Image) :
    ∀ b ∈ (acb_cld_prb img).bands, b.name = "probability" :=
  select_plain_names _ "probability" rfl

/-- The band list of `add_cloud_bands`: the input's bands, then the selected
probability bands, then the thresholded `clouds` band. -/
theorem add_cloud_bands_bands (img : Image) :
    (add_cloud_bands img).bands
      = img.bands ++ ((acb_cld_prb img).bands ++
          [⟨"clouds",
            fun q => if CLD_PRB_THRESH < (acb_cld_prb img).band0.val q then 1
                     else 0,
            (acb_cld_prb img).band0.msk, (acb_cld_prb img).band0.proj⟩]) := rfl

/-- The band list of `add_shadow_bands`: the input's bands, then
`dark_pixels`, `cloud_transform`, `shadows`. -/
theorem add_shadow_bands_bands (img : Image) (u : Bool) :
    (add_shadow_bands img u).bands
      = img.bands ++ ((asb_dark_pixels img u).bands
          ++ ((asb_cld_proj img).bands
            ++ ((asb_shadows img u).bands ++ []))) := rfl

/-- The band list of `add_cld_shdw_mask`: the cloud/shadow stage's bands,
then the `cloudmask` band. -/
theorem add_cld_shdw_mask_bands (img : Image) (u : Bool) :
    (add_cld_shdw_mask img u).bands
      = (add_shadow_bands (add_cloud_bands img) u).bands
        ++ (acsm_cloudmask img u (BUFFER * 2 / 20)).bands := rfl

/-- Looking up `clouds` after `add_cloud_bands` returns the thresholded
probability band (when the input did not already carry one). -/
theorem getBand_clouds_add_cloud_bands (img : Image)
    (hno : "clouds" ∉ img.bandNames) :
    (add_cloud_bands img).getBand "clouds"
      = some ⟨"clouds",
          fun q => if CLD_PRB_THRESH < (acb_cld_prb img).band0.val q then 1
                   else 0,
          (acb_cld_prb img).band0.msk, (acb_cld_prb img).band0.proj⟩ := by
  unfold Image.getBand
  rw [add_cloud_bands_bands]
  rw [find?_append_of_none _ _ _ (find?_name_eq_none _ _ hno)]
  rw [find?_append_of_none _ _ _ (find?_name_eq_none _ _
    (not_mem_names_of_all (acb_cld_prb_names img) (by decide)))]
  exact List.find?_cons_of_pos _ rfl

theorem acb_cld_prb_band0 (img : Image) (pbs : List Band)
    (pps : List (String × PropVal)) (pb : Band)
    (hprop : img.getProp "s2cloudless" = PropVal.img pbs pps)
    (hpb : (Image.mk pbs pps).getBand "probability" = some pb) :
    (acb_cld_prb img).band0 = pb := by
  unfold acb_cld_prb
  rw [hprop]
  rw [show castImage (PropVal.img pbs pps) = Image.mk pbs pps from rfl]
  rw [band0_select_plain (Image.mk pbs pps) "probability" rfl, hpb]
  rfl

/-- The mask applicator keeps exactly the band names matching `B.*`. -/
theorem apply_bandNames (img : Image) :
    (apply_cld_shdw_mask img).bandNames
      = img.bandNames.filter (fun n => strStartsWith n "B") := by
  show ((img.bands.filter (fun b => selMatches "B.*" b.name)).map
      (fun b => Band.mk b.name b.val
        (fun p => b.msk p &&
          ((((img.select "cloudmask").Not).band0).msk p &&
            decide ((((img.select "cloudmask").Not).band0).val p ≠ 0)))
        b.proj)).map Band.name
    = (img.bands.map Band.name).filter (fun n => strStartsWith n "B")
  rw [List.map_map, List.filter_map]
  rfl

theorem ite_of_decide (P : Prop) [Decidable P] (a b : ℚ) :
    (if decide P then a else b) = if P then a else b := by
  by_cases h : P <;> simp [h]

/-- The single `dark_pixels` band produced inside `add_shadow_bands`. -/
theorem asb_dark_pixels_band (img : Image) (u : Bool) :
    (asb_dark_pixels img u).bands
      = [⟨"dark_pixels",
          fun p => (if ((img.select "B8").band0).val p
                        < NIR_DRK_THRESH * SR_BAND_SCALE then 1 else 0)
                   * ((asb_not_water img u).band0).val p,
          fun p => ((img.select "B8").band0).msk p
                   && ((asb_not_water img u).band0).msk p,
          ((img.select "B8").band0).proj⟩] := rfl

/-- The single `cloud_transform` band produced inside `add_shadow_bands`:
the definedness mask of the directional distance transform of the `clouds`
band, reprojected to 100 m. -/
theorem asb_cld_proj_band (img : Image) :
    (asb_cld_proj img).bands
      = [⟨"cloud_transform",
          fun p => if decide (ddtHits ((img.select "clouds").band0)
                      (asb_shadow_azimuth img) (CLD_PRJ_DIST * 10) p).Nonempty
                   then 1 else 0,
          fun _ => true,
          ⟨(img.selectIdx 0).projection.crs, 100⟩⟩] := rfl

/-- The single `shadows` band produced inside `add_shadow_bands`. -/
theorem asb_shadows_band (img : Image) (u : Bool) :
    (asb_shadows img u).bands
      = [⟨"shadows",
          fun p => ((asb_cld_proj img).band0).val p
                   * ((asb_dark_pixels img u).band0).val p,
          fun p => ((asb_cld_proj img).band0).msk p
                   && ((asb_dark_pixels img u).band0).msk p,
          ((asb_cld_proj img).band0).proj⟩] := rfl

theorem getBand_dark (img : Image) (u : Bool)
    (hd : "dark_pixels" ∉ img.bandNames) :
    (add_shadow_bands img u).getBand "dark_pixels"
      = some ((asb_dark_pixels img u).band0) := by
  unfold Image.getBand
  rw [add_shadow_bands_bands]
  rw [find?_append_of_none _ _ _ (find?_name_eq_none _ _ hd)]
  rw [asb_dark_pixels_band, List.singleton_append]
  exact List.find?_cons_of_pos _ rfl

theorem getBand_ct (img : Image) (u : Bool)
    (hc : "cloud_transform" ∉ img.bandNames) :
    (add_shadow_bands img u).getBand "cloud_transform"
      = some ((asb_cld_proj img).band0) := by
  unfold Image.getBand
  rw [add_shadow_bands_bands]
  rw [find?_append_of_none _ _ _ (find?_name_eq_none _ _ hc)]
  rw [asb_dark_pixels_band, List.singleton_append]
  rw [List.find?_cons_of_neg _ (by simp)]
  rw [asb_cld_proj_band, List.singleton_append]
  exact List.find?_cons_of_pos _ rfl

theorem getBand_shadows (img : Image) (u : Bool)
    (hs : "shadows" ∉ img.bandNames) :
    (add_shadow_bands img u).getBand "shadows"
      = some ((asb_shadows img u).band0) := by
  unfold Image.getBand
  rw [add_shadow_bands_bands]
  rw [find?_append_of_none _ _ _ (find?_name_eq_none _ _ hs)]
  rw [asb_dark_pixels_band, List.singleton_append]
  rw [List.find?_cons_of_neg _ (by simp)]
  rw [asb_cld_proj_band, List.singleton_append]
  rw [List.find?_cons_of_neg _ (by simp)]
  rw [asb_shadows_band, List.singleton_append]
  exact List.find?_cons_of_pos _ rfl

/-- Looking up `cloudmask` in the mask-combiner result yields the appended
morphology band (for either dilation radius). -/
theorem getBand_cloudmask (img : Image) (u : Bool) (rad : ℚ)
    (hno : "cloudmask" ∉ img.bandNames) :
    ((add_shadow_bands (add_cloud_bands img) u).addBands
        (acsm_cloudmask img u rad)).getBand "cloudmask"
      = some ((acsm_cloudmask img u rad).band0) := by
  have hcs : (add_shadow_bands (add_cloud_bands img) u).bands.find?
      (fun b => b.name == "cloudmask") = none := by
    rw [add_shadow_bands_bands, add_cloud_bands_bands,
        asb_dark_pixels_band, asb_cld_proj_band, asb_shadows_band]
    refine List.find?_eq_none.mpr (fun b hb => ?_)
    simp only [List.mem_append, List.mem_cons, List.not_mem_nil, or_false,
      List.mem_singleton, List.append_nil] at hb
    rcases hb with ((hb | hb | hb) | hb | hb | hb)
    · simp only [beq_iff_eq]
      intro he
      exact hno (he ▸ List.mem_map_of_mem Band.name hb)
    · rw [acb_cld_prb_names img b hb]
      simp
    · rw [hb]
      simp
    · rw [hb]
      simp
    · rw [hb]
      simp
    · rw [hb]
      simp
  show ((add_shadow_bands (add_cloud_bands img) u).bands
      ++ (acsm_cloudmask img u rad).bands).find? (fun b => b.name == "cloudmask")
    = some ((acsm_cloudmask img u rad).band0)
  rw [find?_append_of_none _ _ _ hcs]
  exact List.find?_cons_of_pos _ rfl

/-- Pointwise value of an eroded band. -/
theorem focalMinB_val (b : Band) (r : ℚ) (x : Pix) :
    (focalMinB r b).val x
      = (ball r).inf' (ball_nonempty r) (fun w =>
          b.val (x.1 + w.1, x.2 + w.2)) := rfl

/-- Pointwise value of the clouds-plus-shadows indicator band. -/
theorem is_cld_shdw_band0_val (img : Image) (u : Bool) (r : Pix) :
    ((acsm_is_cld_shdw img u).band0).val r
      = if 0 < (((add_shadow_bands (add_cloud_bands img) u).select
                   "clouds").band0).val r
             + (((add_shadow_bands (add_cloud_bands img) u).select
                   "shadows").band0).val r
        then 1 else 0 := rfl

set_option maxHeartbeats 800000 in
/-- The `cloudmask` value is the dilation by `rad` of the erosion by 2 of
the indicator band. -/
theorem acsm_chain (img : Image) (u : Bool) (rad : ℚ) (p : Pix) :
    ((acsm_cloudmask img u rad).band0).val p
      = (ball rad).sup' (ball_nonempty rad) (fun q =>
          (focalMinB 2 ((acsm_is_cld_shdw img u).band0)).val
            (p.1 + q.1, p.2 + q.2)) := rfl

/-- The value function of the `cloudmask` band produced by the (radius-
parameterised) morphological cleanup: a dilation by `rad` of an erosion by
2 of the clouds-plus-shadows indicator. -/
theorem acsm_cloudmask_band0_val (img : Image) (u : Bool) (rad : ℚ) (p : Pix) :
    ((acsm_cloudmask img u rad).band0).val p
      = (ball rad).sup' (ball_nonempty rad) (fun q =>
          (ball 2).inf' (ball_nonempty 2) (fun w =>
            if 0 < (add_shadow_bands (add_cloud_bands img) u).bandVal "clouds"
                     (p.1 + q.1 + w.1, p.2 + q.2 + w.2)
                   + (add_shadow_bands (add_cloud_bands img) u).bandVal "shadows"
                     (p.1 + q.1 + w.1, p.2 + q.2 + w.2)
            then 1 else 0)) := by
  have hc := band0_select_plain (add_shadow_bands (add_cloud_bands img) u)
    "clouds" rfl
  have hsh := band0_select_plain (add_shadow_bands (add_cloud_bands img) u)
    "shadows" rfl
  rw [acsm_chain]
  simp only [focalMinB_val, is_cld_shdw_band0_val, hc, hsh, Image.bandVal]

theorem ite_lt_ite (c : Prop) [Decidable c] :
    (if (0:ℚ) < (if c then (1:ℚ) else 0) then (1:ℚ) else 0)
      = if c then 1 else 0 := by
  by_cases h : c <;> simp [h]

/-- On the test scene, the derived `clouds` band is the indicator of the
Chebyshev ball of radius 2 (probability 100 inside, 40 — not strictly above
the threshold — outside). -/
theorem tst_clouds_val (r : Pix) :
    (add_shadow_bands (add_cloud_bands tstImg) true).bandVal "clouds" r
      = if -2 ≤ r.1 ∧ r.1 ≤ 2 ∧ -2 ≤ r.2 ∧ r.2 ≤ 2 then 1 else 0 := by
  have hgb : (add_shadow_bands (add_cloud_bands tstImg) true).getBand "clouds"
      = some ⟨"clouds",
          fun q => if CLD_PRB_THRESH < probBandT.val q then 1 else 0,
          probBandT.msk, probBandT.proj⟩ := rfl
  rw [Image.bandVal, hgb]
  show (if CLD_PRB_THRESH < probBandT.val r then (1:ℚ) else 0) = _
  rw [show probBandT.val r
      = (if -2 ≤ r.1 ∧ r.1 ≤ 2 ∧ -2 ≤ r.2 ∧ r.2 ≤ 2 then (100:ℚ) else 40)
      from rfl]
  by_cases hcond : (-2 ≤ r.1 ∧ r.1 ≤ 2 ∧ -2 ≤ r.2 ∧ r.2 ≤ 2)
  · rw [if_pos hcond, if_pos (by norm_num [CLD_PRB_THRESH]), if_pos hcond]
  · rw [if_neg hcond, if_neg (by norm_num [CLD_PRB_THRESH]), if_neg hcond]

/-- On the test scene, the `shadows` band is identically 0: the constant
bright NIR band makes `dark_pixels` vanish everywhere. -/
theorem tst_shadows_val (r : Pix) :
    (add_shadow_bands (add_cloud_bands tstImg) true).bandVal "shadows" r
      = 0 := by
  rw [Image.bandVal,
      getBand_shadows (add_cloud_bands tstImg) true (by decide)]
  show ((asb_cld_proj (add_cloud_bands tstImg)).band0).val r
      * ((asb_dark_pixels (add_cloud_bands tstImg) true).band0).val r = 0
  rw [show ((asb_dark_pixels (add_cloud_bands tstImg) true).band0).val r
      = (if (9999:ℚ) < NIR_DRK_THRESH * SR_BAND_SCALE then 1 else 0)
        * ((asb_not_water (add_cloud_bands tstImg) true).band0).val r
      from rfl]
  rw [if_neg (by norm_num [NIR_DRK_THRESH, SR_BAND_SCALE])]
  rw [zero_mul, mul_zero]

/-- On the test scene, the cloudmask value at a pixel is the dilation by
`rad` of the erosion by 2 of the radius-2 ball indicator. -/
theorem tst_cloudmask_val (rad : ℚ) :
    ((acsm_cloudmask tstImg true rad).band0).val (6, 0)
      = (ball rad).sup' (ball_nonempty rad) (fun q =>
          (ball 2).inf' (ball_nonempty 2) (fun w =>
            if (-2 ≤ 6 + q.1 + w.1 ∧ 6 + q.1 + w.1 ≤ 2 ∧
                -2 ≤ 0 + q.2 + w.2 ∧ 0 + q.2 + w.2 ≤ 2) then (1:ℚ) else 0)) := by
  rw [acsm_cloudmask_band0_val]
  simp only [tst_clouds_val, tst_shadows_val, add_zero, ite_lt_ite]

/-! ## Claim theorems -/

/-- C1: `get_s2_sr_cld_col` is an inner join on equality of `system:index`
with save-first semantics: every output image is a filtered primary image
carrying, as its `s2cloudless` property, the first matching secondary
image, and a filtered primary image with no matching secondary image is
absent from the output. -/
theorem get_s2_sr_cld_col_join (catalog : String → List Image)
    (bounds : Image → Bool) (sd ed : ℚ) :
    (∀ img ∈ get_s2_sr_cld_col catalog bounds sd ed,
      ∃ p ∈ s2ReflCol catalog bounds sd ed, ∃ s,
        (s2CloudProbCol catalog bounds sd ed).find?
          (fieldMatches "system:index" "system:index" p) = some s ∧
        img = p.set "s2cloudless" s.toProp) ∧
    (∀ p ∈ s2ReflCol catalog bounds sd ed,
      (s2CloudProbCol catalog bounds sd ed).find?
        (fieldMatches "system:index" "system:index" p) = none →
      p ∉ get_s2_sr_cld_col catalog bounds sd ed) := by
  constructor
  · intro img him
    exact mem_joinSaveFirst.mp him
  · intro p hp hnone hinj
    obtain ⟨p', hp', s', hs', heq⟩ := mem_joinSaveFirst.mp hinj
    have hidx : p.getProp "system:index" = p'.getProp "system:index" := by
      rw [heq]
      exact getProp_set_ne p' "s2cloudless" "system:index" s'.toProp (by decide)
    have hsame : fieldMatches "system:index" "system:index" p
        = fieldMatches "system:index" "system:index" p' := by
      funext s
      unfold fieldMatches
      rw [hidx]
    rw [hsame, hs'] at hnone
    exact Option.noConfusion hnone

/-- C1 witness: in the two-primary/one-secondary catalog, the unmatched
primary `x2` is dropped from the joined collection. -/
theorem get_s2_sr_cld_col_join_witness :
    wPrimX2 ∉ get_s2_sr_cld_col wCatalog wBounds 0 3000 :=
  (get_s2_sr_cld_col_join wCatalog wBounds 0 3000).2 wPrimX2
    (show wPrimX2 ∈ [wPrimX1, wPrimX2] from
      List.mem_cons_of_mem _ (List.mem_singleton.mpr rfl))
    rfl

/-- C2 (amended): in `add_cld_shdw_mask` the combined cloud/shadow mask is
eroded by a focal-minimum of radius 2 working-resolution units and then
dilated by a focal-maximum whose radius is `BUFFER * 2 / 20` = 10
working-resolution units — twice the 100 m buffer distance expressed at the
20 m working resolution, not `BUFFER / 20` = 5 — before being reprojected
to 20 m scale and renamed `cloudmask`. -/
theorem add_cld_shdw_mask_morphology (img : Image) (u : Bool)
    (hno : "cloudmask" ∉ img.bandNames) :
    BUFFER * 2 / 20 = 10 ∧
    ∃ cmb, (add_cld_shdw_mask img u).getBand "cloudmask" = some cmb ∧
      cmb.name = "cloudmask" ∧
      cmb.proj = Proj.mk (img.selectIdx 0).projection.crs 20 ∧
      ∀ p : Pix, cmb.val p
        = (ball 10).sup' (ball_nonempty 10) (fun q =>
            (ball 2).inf' (ball_nonempty 2) (fun w =>
              if 0 < (add_shadow_bands (add_cloud_bands img) u).bandVal
                       "clouds" (p.1 + q.1 + w.1, p.2 + q.2 + w.2)
                     + (add_shadow_bands (add_cloud_bands img) u).bandVal
                       "shadows" (p.1 + q.1 + w.1, p.2 + q.2 + w.2)
              then 1 else 0)) := by
  have h10 : BUFFER * 2 / 20 = (10 : ℚ) := by norm_num [BUFFER]
  refine ⟨h10, (acsm_cloudmask img u (BUFFER * 2 / 20)).band0,
    getBand_cloudmask img u (BUFFER * 2 / 20) hno, rfl, rfl, fun p => ?_⟩
  rw [acsm_cloudmask_band0_val, h10]

/-- C2 witness for the amended claim: the test scene. -/
theorem add_cld_shdw_mask_morphology_witness :
    BUFFER * 2 / 20 = 10 ∧
    ∃ cmb, (add_cld_shdw_mask tstImg true).getBand "cloudmask" = some cmb ∧
      cmb.name = "cloudmask" ∧
      cmb.proj = Proj.mk (tstImg.selectIdx 0).projection.crs 20 ∧
      ∀ p : Pix, cmb.val p
        = (ball 10).sup' (ball_nonempty 10) (fun q =>
            (ball 2).inf' (ball_nonempty 2) (fun w =>
              if 0 < (add_shadow_bands (add_cloud_bands tstImg) true).bandVal
                       "clouds" (p.1 + q.1 + w.1, p.2 + q.2 + w.2)
                     + (add_shadow_bands (add_cloud_bands tstImg) true).bandVal
                       "shadows" (p.1 + q.1 + w.1, p.2 + q.2 + w.2)
              then 1 else 0)) :=
  add_cld_shdw_mask_morphology tstImg true (by decide)

/-- C2 counterexample: on the test scene (one cloud blob of Chebyshev
radius 2, no shadows), the source's mask — dilation radius
`BUFFER * 2 / 20` = 10 — is 1 at pixel (6,0), while the mask produced with
the claimed dilation radius — 100 m at the 20 m working resolution,
`BUFFER / 20` = 5 — is 0 there. -/
theorem add_cld_shdw_mask_radius_cex :
    (add_cld_shdw_mask tstImg true).bandVal "cloudmask" (6, 0) = 1 ∧
    (claimed_add_cld_shdw_mask tstImg true).bandVal "cloudmask" (6, 0) = 0 := by
  constructor
  · have e0 : add_cld_shdw_mask tstImg true
        = (add_shadow_bands (add_cloud_bands tstImg) true).addBands
            (acsm_cloudmask tstImg true (BUFFER * 2 / 20)) := rfl
    rw [e0, Image.bandVal,
        getBand_cloudmask tstImg true (BUFFER * 2 / 20) (by decide)]
    show ((acsm_cloudmask tstImg true (BUFFER * 2 / 20)).band0).val (6, 0) = 1
    rw [tst_cloudmask_val, show BUFFER * 2 / 20 = (10:ℚ) from by
      norm_num [BUFFER]]
    refine sup'_eq_one _ _ (fun q hq => ?_) ((-6 : ℤ), (0 : ℤ))
      (by decide) ?_
    · refine le_trans (Finset.inf'_le _
        (show ((0:ℤ), (0:ℤ)) ∈ ball 2 from by decide)) ?_
      dsimp only
      split_ifs <;> norm_num
    · refine inf'_eq_one _ _ (fun w hw => ?_)
      have h1 := Finset.mem_Icc.mp (Finset.mem_product.mp hw).1
      have h2 := Finset.mem_Icc.mp (Finset.mem_product.mp hw).2
      rw [show ballRad 2 = 2 from by decide] at h1 h2
      dsimp only
      rw [if_pos (by omega)]
  · have e0 : claimed_add_cld_shdw_mask tstImg true
        = (add_shadow_bands (add_cloud_bands tstImg) true).addBands
            (acsm_cloudmask tstImg true (BUFFER / 20)) := rfl
    rw [e0, Image.bandVal,
        getBand_cloudmask tstImg true (BUFFER / 20) (by decide)]
    show ((acsm_cloudmask tstImg true (BUFFER / 20)).band0).val (6, 0) = 0
    rw [tst_cloudmask_val, show BUFFER / 20 = (5:ℚ) from by norm_num [BUFFER]]
    refine sup'_eq_zero _ _ (fun q hq => ?_)
    have h1 := Finset.mem_Icc.mp (Finset.mem_product.mp hq).1
    have h2 := Finset.mem_Icc.mp (Finset.mem_product.mp hq).2
    rw [show ballRad 5 = 5 from by decide] at h1 h2
    refine inf'_eq_zero _ _ (fun w hw => ?_) ((2 : ℤ), (0 : ℤ))
      (by decide) ?_
    · dsimp only
      split_ifs <;> norm_num
    · dsimp only
      rw [if_neg (by omega)]

/-- C3: `add_cloud_bands` marks a pixel as cloud in the `clouds` band
exactly when the attached probability band strictly exceeds
`CLD_PRB_THRESH` (40); a probability of exactly 40 is NOT cloud. -/
theorem add_cloud_bands_threshold (img : Image) (pbs : List Band)
    (pps : List (String × PropVal)) (pb : Band)
    (hprop : img.getProp "s2cloudless" = PropVal.img pbs pps)
    (hpb : (Image.mk pbs pps).getBand "probability" = some pb)
    (hno : "clouds" ∉ img.bandNames) (p : Pix) :
    ((add_cloud_bands img).bandVal "clouds" p = 1 ↔ CLD_PRB_THRESH < pb.val p) ∧
    (pb.val p = CLD_PRB_THRESH → (add_cloud_bands img).bandVal "clouds" p = 0) := by
  have hb0 := acb_cld_prb_band0 img pbs pps pb hprop hpb
  have hval : (add_cloud_bands img).bandVal "clouds" p
      = if CLD_PRB_THRESH < pb.val p then 1 else 0 := by
    rw [Image.bandVal, getBand_clouds_add_cloud_bands img hno, hb0]
    rfl
  rw [hval]
  refine ⟨⟨fun h1 => ?_, fun hlt => if_pos hlt⟩, fun heq => ?_⟩
  · by_contra hc
    rw [if_neg hc] at h1
    norm_num at h1
  · exact if_neg (by rw [heq]; exact lt_irrefl _)

/-- C3 witness: at pixel (5,5) the test probability band is exactly 40, so
the pixel is not cloud. -/
theorem add_cloud_bands_threshold_witness :
    ((add_cloud_bands tstImg).bandVal "clouds" (5, 5) = 1
        ↔ CLD_PRB_THRESH < probBandT.val (5, 5)) ∧
    (probBandT.val (5, 5) = CLD_PRB_THRESH
        → (add_cloud_bands tstImg).bandVal "clouds" (5, 5) = 0) :=
  add_cloud_bands_threshold tstImg [probBandT] [] probBandT rfl rfl
    (by decide) (5, 5)

/-- C4: `add_shadow_bands` computes `dark_pixels` as (B8 < 0.15 × 1e4) AND
not-water, `cloud_transform` as the definedness of the directional distance
transform of the `clouds` band along azimuth 90 − MEAN_SOLAR_AZIMUTH_ANGLE
for 10 distance units (1 km × 10 per km) reprojected to 100 m scale, and
`shadows` as the pixelwise product of `cloud_transform` and `dark_pixels`. -/
theorem add_shadow_bands_spec (img : Image) (u : Bool) (msaa : ℚ) (cb : Band)
    (hmsaa : img.getProp "MEAN_SOLAR_AZIMUTH_ANGLE" = PropVal.num msaa)
    (hcb : img.getBand "clouds" = some cb)
    (hd : "dark_pixels" ∉ img.bandNames)
    (hc : "cloud_transform" ∉ img.bandNames)
    (hs : "shadows" ∉ img.bandNames) :
    (∀ p : Pix, (add_shadow_bands img u).bandVal "dark_pixels" p
        = (if img.bandVal "B8" p < 0.15 * 10000 then 1 else 0)
          * (if u then (if img.bandVal "SCL" p = 6 then 0 else 1)
             else (if (img.bandVal "B4" p - img.bandVal "B2" p)
                      / (img.bandVal "B4" p + img.bandVal "B2" p) < 0.2
                   then 1 else 0))) ∧
    (∃ ctb, (add_shadow_bands img u).getBand "cloud_transform" = some ctb ∧
        ctb.proj = Proj.mk (img.selectIdx 0).projection.crs 100 ∧
        ∀ p : Pix, ctb.val p
          = if (ddtHits cb (90 - msaa) 10 p).Nonempty then 1 else 0) ∧
    (∀ p : Pix, (add_shadow_bands img u).bandVal "shadows" p
        = (add_shadow_bands img u).bandVal "cloud_transform" p
          * (add_shadow_bands img u).bandVal "dark_pixels" p) := by
  have haz : asb_shadow_azimuth img = 90 - msaa := by
    rw [asb_shadow_azimuth, hmsaa]
    rfl
  have hsel : (img.select "clouds").band0 = cb := by
    rw [band0_select_plain img "clouds" rfl, hcb]
    rfl
  have h10 : CLD_PRJ_DIST * 10 = (10 : ℚ) := by norm_num [CLD_PRJ_DIST]
  refine ⟨fun p => ?_, ⟨(asb_cld_proj img).band0, getBand_ct img u hc, rfl,
    fun p => ?_⟩, fun p => ?_⟩
  · rw [Image.bandVal, getBand_dark img u hd]
    cases u with
    | true =>
        show (if ((img.select "B8").band0).val p
                  < NIR_DRK_THRESH * SR_BAND_SCALE then (1:ℚ) else 0)
             * (((img.select "SCL").neqNum 6).band0).val p = _
        rw [band0_select_plain img "B8" rfl]
        show _ * (if ((img.select "SCL").band0).val p = 6 then (0:ℚ) else 1) = _
        rw [band0_select_plain img "SCL" rfl]
        rfl
    | false =>
        show (if ((img.select "B8").band0).val p
                  < NIR_DRK_THRESH * SR_BAND_SCALE then (1:ℚ) else 0)
             * (((img.normalizedDifference "B4" "B2").ltNum 0.2).band0).val p
            = _
        rw [band0_select_plain img "B8" rfl]
        rfl
  · show (if decide (ddtHits ((img.select "clouds").band0)
              (asb_shadow_azimuth img) (CLD_PRJ_DIST * 10) p).Nonempty
          then (1:ℚ) else 0) = _
    rw [hsel, haz, h10, ite_of_decide]
  · rw [Image.bandVal, Image.bandVal, Image.bandVal,
        getBand_shadows img u hs, getBand_ct img u hc, getBand_dark img u hd]
    rfl

/-- C4 witness: the shadow deriver on the test scene carrying a `clouds`
band, with sun azimuth 90° and the SCL water test. -/
theorem add_shadow_bands_spec_witness :
    (∀ p : Pix, (add_shadow_bands w4img true).bandVal "dark_pixels" p
        = (if w4img.bandVal "B8" p < 0.15 * 10000 then 1 else 0)
          * (if w4img.bandVal "SCL" p = 6 then 0 else 1)) ∧
    (∃ ctb, (add_shadow_bands w4img true).getBand "cloud_transform" = some ctb ∧
        ctb.proj = Proj.mk (w4img.selectIdx 0).projection.crs 100 ∧
        ∀ p : Pix, ctb.val p
          = if (ddtHits cloudsBandT (90 - 90) 10 p).Nonempty then 1 else 0) ∧
    (∀ p : Pix, (add_shadow_bands w4img true).bandVal "shadows" p
        = (add_shadow_bands w4img true).bandVal "cloud_transform" p
          * (add_shadow_bands w4img true).bandVal "dark_pixels" p) :=
  add_shadow_bands_spec w4img true 90 cloudsBandT rfl rfl
    (by decide) (by decide) (by decide)

/-- C6: `apply_cld_shdw_mask` keeps exactly the `B.*`-named reflectance
bands; every pixel where `cloudmask` is 1 becomes masked in all retained
bands, and every pixel where `cloudmask` is 0 (and defined) keeps its input
value and validity. -/
theorem apply_cld_shdw_mask_spec (img : Image) (cm : Band)
    (hcm : img.getBand "cloudmask" = some cm) :
    ((apply_cld_shdw_mask img).bandNames
        = img.bandNames.filter (fun n => strStartsWith n "B")) ∧
    (∀ p : Pix, cm.val p = 1 →
        ∀ b ∈ (apply_cld_shdw_mask img).bands, b.msk p = false) ∧
    (∀ p : Pix, cm.val p = 0 → cm.msk p = true →
        List.Forall₂ (fun b b' : Band =>
            b'.name = b.name ∧ b'.val p = b.val p ∧ b'.msk p = b.msk p)
          (img.bands.filter (fun b => selMatches "B.*" b.name))
          (apply_cld_shdw_mask img).bands) := by
  have hsel : (img.select "cloudmask").band0 = cm := by
    rw [band0_select_plain img "cloudmask" rfl, hcm]
    rfl
  have hnot : ((img.select "cloudmask").Not).band0
      = ⟨cm.name, fun q => if cm.val q = 0 then 1 else 0, cm.msk, cm.proj⟩ := by
    show (⟨((img.select "cloudmask").band0).name,
           fun q => if ((img.select "cloudmask").band0).val q = 0 then 1 else 0,
           ((img.select "cloudmask").band0).msk,
           ((img.select "cloudmask").band0).proj⟩ : Band) = _
    rw [hsel]
  refine ⟨apply_bandNames img, fun p hp1 b hb => ?_, fun p hp0 hpm => ?_⟩
  · have hb' : b ∈ (img.bands.filter (fun c => selMatches "B.*" c.name)).map
        (fun c => Band.mk c.name c.val
          (fun q => c.msk q &&
            ((((img.select "cloudmask").Not).band0).msk q &&
              decide ((((img.select "cloudmask").Not).band0).val q ≠ 0)))
          c.proj) := hb
    obtain ⟨c, _, hc⟩ := List.mem_map.mp hb'
    rw [← hc]
    show (c.msk p &&
        ((((img.select "cloudmask").Not).band0).msk p &&
          decide ((((img.select "cloudmask").Not).band0).val p ≠ 0))) = false
    rw [hnot]
    show (c.msk p && (cm.msk p &&
        decide ((if cm.val p = 0 then (1:ℚ) else 0) ≠ 0))) = false
    rw [if_neg (by rw [hp1]; norm_num)]
    simp
  · show List.Forall₂ _ (img.bands.filter (fun b => selMatches "B.*" b.name))
      ((img.bands.filter (fun b => selMatches "B.*" b.name)).map
        (fun c => Band.mk c.name c.val
          (fun q => c.msk q &&
            ((((img.select "cloudmask").Not).band0).msk q &&
              decide ((((img.select "cloudmask").Not).band0).val q ≠ 0)))
          c.proj))
    rw [List.forall₂_map_right_iff, List.forall₂_same]
    intro c _
    refine ⟨rfl, rfl, ?_⟩
    show (c.msk p &&
        ((((img.select "cloudmask").Not).band0).msk p &&
          decide ((((img.select "cloudmask").Not).band0).val p ≠ 0))) = c.msk p
    rw [hnot]
    show (c.msk p && (cm.msk p &&
        decide ((if cm.val p = 0 then (1:ℚ) else 0) ≠ 0))) = c.msk p
    rw [if_pos hp0, hpm]
    simp

/-- C6 witness: on the applicator test scene, the pixel (0,0) has
cloudmask 1, so the retained reflectance band is masked there. -/
theorem apply_cld_shdw_mask_spec_witness :
    ((apply_cld_shdw_mask w6img).band0).msk (0, 0) = false :=
  (apply_cld_shdw_mask_spec w6img cmBandT rfl).2.1 (0, 0) (by decide)
    ((apply_cld_shdw_mask w6img).band0) (List.mem_singleton.mpr rfl)

/-- C5 (amended): `add_cloud_bands`, `add_shadow_bands` and
`add_cld_shdw_mask` each return an image whose band list strictly extends
its input's (no pre-existing band is removed); `apply_cld_shdw_mask`, by
contrast, returns exactly the reflectance (`B.*`-named) subset of its
input's bands, dropping all others. -/
theorem band_growth (img : Image) (u : Bool) :
    (∃ t, (add_cloud_bands img).bands = img.bands ++ t ∧ t ≠ []) ∧
    (∃ t, (add_shadow_bands img u).bands = img.bands ++ t ∧ t ≠ []) ∧
    (∃ t, (add_cld_shdw_mask img u).bands = img.bands ++ t ∧ t ≠ []) ∧
    (apply_cld_shdw_mask img).bandNames
      = img.bandNames.filter (fun n => strStartsWith n "B") := by
  refine ⟨⟨_, add_cloud_bands_bands img, ?_⟩,
          ⟨_, add_shadow_bands_bands img u, ?_⟩, ?_, apply_bandNames img⟩
  · intro hnil
    simp [List.append_eq_nil] at hnil
  · intro hnil
    have h1 := congrArg List.length hnil
    simp only [List.length_append, List.length_nil] at h1
    rw [show (asb_shadows img u).bands.length = 1 from rfl] at h1
    omega
  · have h3 := add_cld_shdw_mask_bands img u
    rw [add_shadow_bands_bands, add_cloud_bands_bands] at h3
    rw [List.append_assoc, List.append_assoc] at h3
    refine ⟨_, h3, ?_⟩
    intro hnil
    simp [List.append_eq_nil] at hnil

/-- C5 counterexample: `apply_cld_shdw_mask` drops the pre-existing `SCL`
band, so its output band set is not a superset of its input's — the claim
fails for that stage. -/
theorem band_growth_cex :
    "SCL" ∈ w6img.bandNames ∧ "SCL" ∉ (apply_cld_shdw_mask w6img).bandNames :=
  ⟨by decide, by decide⟩

/-- C7: with `add_date` enabled, every feature produced by the reducer
returned from `create_reduce_regions` carries a `millis` property equal to
the image's acquisition time in milliseconds — hence identical across all
features of the same image. -/
theorem reduce_regions_millis (collection : List Feature) (reducer : Reducer)
    (add_props : Option (List String)) (crs : String) (scale : ℚ)
    (img : Image) (t : ℚ)
    (ht : img.getProp "system:time_start" = PropVal.num t) :
    ∀ f ∈ create_reduce_regions collection reducer true add_props crs scale img,
      f.get "millis" = PropVal.num t := by
  intro f hf
  unfold create_reduce_regions at hf
  simp only [if_true] at hf
  rw [List.mem_map] at hf
  obtain ⟨g, _, hg⟩ := hf
  rw [← hg]
  show lookupProp (("millis", PropVal.num img.dateMillis) :: g.props) "millis"
      = PropVal.num t
  rw [lookupProp, if_pos rfl, Image.dateMillis, ht]
  rfl

/-- C7 witness: one region, one image; the produced feature's `millis`. -/
theorem reduce_regions_millis_witness :
    Feature.get ⟨0, [("millis", PropVal.num 1650000000000)]⟩ "millis"
      = PropVal.num 1650000000000 :=
  reduce_regions_millis [⟨0, []⟩] (fun _ _ _ _ => []) none "epsg:3413" 20
    wImgEmpty 1650000000000 rfl ⟨0, [("millis", PropVal.num 1650000000000)]⟩
    (List.mem_singleton.mpr rfl)

/-- C8: `fc_to_df` with an explicit non-list selector raises the assertion
immediately, and the deprecated `fc_to_dict` and `create_df` raise
`NotImplementedError` unconditionally — in all cases with an empty
materialisation trace, i.e. before any remote round trip. -/
theorem conversion_fail_fast (fc d : FC) (v : PyVal) (hv : v.isList = false) :
    fc_to_df fc (some v) = (.error .assertionError, []) ∧
    fc_to_dict fc = (.error .notImplementedError, []) ∧
    create_df d = (.error .notImplementedError, []) := by
  refine ⟨?_, rfl, rfl⟩
  cases v with
  | plist l => simp [PyVal.isList] at hv
  | pnone => rfl
  | pnum q => rfl
  | pstr s => rfl

/-- C8 witness: a numeric selector value. -/
theorem conversion_fail_fast_witness :
    fc_to_df wFC (some (PyVal.pnum 3)) = (.error .assertionError, []) ∧
    fc_to_dict wFC = (.error .notImplementedError, []) ∧
    create_df wFC = (.error .notImplementedError, []) :=
  conversion_fail_fast wFC wFC (PyVal.pnum 3) rfl

/-- C9: the four pipeline stages are deterministic: on identical images and
parameters they return identical outputs (the embedding exhibits them as
pure functions of their arguments — no hidden randomness or state). -/
theorem pipeline_deterministic (img1 img2 : Image) (u1 u2 : Bool)
    (hi : img1 = img2) (hu : u1 = u2) :
    add_cloud_bands img1 = add_cloud_bands img2 ∧
    add_shadow_bands img1 u1 = add_shadow_bands img2 u2 ∧
    add_cld_shdw_mask img1 u1 = add_cld_shdw_mask img2 u2 ∧
    apply_cld_shdw_mask img1 = apply_cld_shdw_mask img2 := by
  subst hi
  subst hu
  exact ⟨rfl, rfl, rfl, rfl⟩

/-- C9 witness: two runs on the test scene. -/
theorem pipeline_deterministic_witness :
    add_cloud_bands tstImg = add_cloud_bands tstImg ∧
    add_shadow_bands tstImg true = add_shadow_bands tstImg true ∧
    add_cld_shdw_mask tstImg true = add_cld_shdw_mask tstImg true ∧
    apply_cld_shdw_mask tstImg = apply_cld_shdw_mask tstImg :=
  pipeline_deterministic tstImg tstImg true true rfl rfl

/-- C10: `get_date` materialises exactly the single `system:time_start`
property and returns the local-time datetime whose POSIX timestamp in
seconds is the millisecond value times `1e-3`, i.e. divided by 1000
(independently of the `attr` argument, which the body ignores). -/
theorem get_date_millis (im : Image) (attr : String) (t : ℚ)
    (ht : im.getProp "system:time_start" = PropVal.num t) :
    get_date im attr
      = (dtFromTimestamp (t * (1 / 1000)), ["get system:time_start .getInfo"]) ∧
    t * (1 / 1000) = t / 1000 := by
  constructor
  · unfold get_date
    rw [ht]
    rfl
  · ring

/-- C10 witness: a concrete timestamp. -/
theorem get_date_millis_witness :
    get_date wImgEmpty "system:time_start"
      = (dtFromTimestamp ((1650000000000 : ℚ) * (1 / 1000)),
         ["get system:time_start .getInfo"]) ∧
    (1650000000000 : ℚ) * (1 / 1000) = 1650000000000 / 1000 :=
  get_date_millis wImgEmpty "system:time_start" 1650000000000 rfl

end GeeTools
